import Mathlib

/-
Verification development for the foodorder-bridge cache core:
the Odoo connection pool (app/services/connection_pool.py),
the fetch/resolve/cache pipeline (app/services/odoo_cache_service.py),
the Firestore store (app/services/firestore_cache_service.py)
and the hybrid orchestrator (app/services/cache_factory.py).

Conventions of the shallow embedding:
* Python floats (prices and epoch timestamps) are modelled as
  integers: the core only ever adds, maximises and compares them, so
  the embedding is exact on integral inputs and every definition stays
  kernel-evaluable.
* Odoo many2one fields, which are either a two-element pair or False,
  are modelled as Option values; the Python truthiness test on a raw
  integer id is modelled by an explicit comparison with 0.
* Python dicts are modelled as insertion-ordered association lists:
  assocSet overwrites in place as dict assignment does, and dictOf
  mirrors a dict comprehension where later keys overwrite earlier ones.
* Filesystem and image side effects (base64 decoding, thumbnailing,
  image files on disk) are out of scope of the core specification and
  are elided; the cache state keeps the JSON collection files only.
-/

/- Insertion-ordered dictionary operations used throughout. -/

def assocSet {α : Type} (l : List (Nat × α)) (k : Nat) (v : α) : List (Nat × α) :=
  match l with
  | [] => [(k, v)]
  | (k', v') :: rest => if k' = k then (k, v) :: rest else (k', v') :: assocSet rest k v

def dictOf {α : Type} (key : α → Nat) (l : List α) : List (Nat × α) :=
  l.foldl (fun acc x => assocSet acc (key x) x) []

/- Python max(xs, default=d): maximum of a nonempty list, d when empty. -/
def maxD (l : List Int) (d : Int) : Int :=
  match l with
  | [] => d
  | x :: xs => xs.foldl max x

/- Python substring test `sub in s`, for a fixed nonempty needle. -/
def containsSub (s sub : String) : Bool :=
  (s.splitOn sub).length > 1

/- Raw upstream records, as returned by the batched search_read calls in
OdooCacheService.reload_cache.  Fields the core never reads after the
fetch (images, barcodes, sale descriptions) are elided. -/

structure OdooCategory where
  id : Nat
  name : String
  parent_id : Option (Nat × String)
  sequence : Int
deriving DecidableEq, Repr

structure RawProduct where
  id : Nat
  name : String
  pos_categ_id : Option (Nat × String)
  product_tmpl_id : Option Nat
deriving DecidableEq, Repr

structure TemplateRec where
  id : Nat
  list_price : Int
deriving DecidableEq, Repr

structure OdooAttribute where
  id : Nat
  name : String
  create_variant : String
  display_type : String
deriving DecidableEq, Repr

structure OdooAttributeValue where
  id : Nat
  name : String
  attribute_id : Option (Nat × String)
deriving DecidableEq, Repr

structure TemplateAttributeLine where
  id : Nat
  product_tmpl_id : Option Nat
  attribute_id : Option Nat
  value_ids : List Nat
deriving DecidableEq, Repr

structure TemplateAttributeValue where
  id : Nat
  name : String
  price_extra : Option Int
  product_tmpl_id : Option Nat
  attribute_id : Option Nat
  product_attribute_value_id : Option Nat
  product_packaging_id : Option Nat
deriving DecidableEq, Repr

structure ProductPackaging where
  id : Nat
  product_id : Option Nat
deriving DecidableEq, Repr

structure LinkedProductRec where
  id : Nat
  name : String
  product_tmpl_id : Option Nat
deriving DecidableEq, Repr

/- The per-product record stored between the fetch and the enrichment
step of reload_cache (basic_products in the source). -/
structure BasicProduct where
  id : Nat
  name : String
  pos_categ_id : Option (Nat × String)
  list_price : Int
  product_tmpl_id : Option Nat
deriving DecidableEq, Repr

/- Resolved attribute data (OdooCacheService._process_attributes). -/

structure LinkedInfo where
  product_packaging_id : Nat
  linked_product_id : Nat
  linked_product_name : String
  linked_product_price : Int
deriving DecidableEq, Repr

structure ResolvedValue where
  id : Nat
  name : String
  price_extra : Int
  base_value_id : Nat
  base_value_name : String
  linked : Option LinkedInfo
deriving DecidableEq, Repr

structure AttributeLine where
  attribute_id : Nat
  attribute_name : String
  display_type : String
  create_variant : String
  values : List ResolvedValue
deriving DecidableEq, Repr

structure ProductAttrs where
  product_id : Nat
  product_name : String
  template_id : Nat
  attribute_lines : List AttributeLine
deriving DecidableEq, Repr

structure ProcessedAttributeValue where
  id : Nat
  name : String
  attribute_id : Option Nat
  attribute_name : Option String
deriving DecidableEq, Repr

/- Lookup context shared by the value-resolution helpers; bundles the
dictionaries built at the top of _process_attributes and the packaging
data passed into it. -/
structure ResolveCtx where
  values_by_id : List (Nat × OdooAttributeValue)
  packaging_data : List (Nat × ProductPackaging)
  linked_products_data : List (Nat × LinkedProductRec)
  linked_template_prices : List (Nat × Int)
deriving DecidableEq, Repr

/- Linked-product resolution for one template attribute value.  The
source updates value_data in place with the packaging fields when every
lookup on the chain packaging -> linked product -> template price
succeeds; this helper returns the extra fields as an optional record. -/
def resolveLinkedInfo (ctx : ResolveCtx) (template_val : TemplateAttributeValue) :
    Option LinkedInfo :=
  match template_val.product_packaging_id with
  | none => none
  | some pkg_id =>
    if pkg_id = 0 then none
    else
      match ctx.packaging_data.lookup pkg_id with
      | none => none
      | some pkg =>
        match pkg.product_id with
        | none => none
        | some linked_product_id =>
          if linked_product_id = 0 then none
          else
            match ctx.linked_products_data.lookup linked_product_id with
            | none => none
            | some linked_product =>
              let linked_price : Int :=
                match linked_product.product_tmpl_id with
                | some linked_template_id =>
                  if linked_template_id = 0 then 0
                  else (ctx.linked_template_prices.lookup linked_template_id).getD 0
                | none => 0
              some { product_packaging_id := pkg_id,
                     linked_product_id := linked_product_id,
                     linked_product_name := linked_product.name,
                     linked_product_price := linked_price }

/- The value_data dictionary built inside _process_attributes for one
template attribute value whose base value lookup succeeded.  A missing
price_extra defaults to 0 (template_val.get with default 0). -/
def mkValueData (ctx : ResolveCtx) (template_val : TemplateAttributeValue)
    (base_val_id : Nat) (base_val : OdooAttributeValue) : ResolvedValue :=
  { id := template_val.id,
    name := template_val.name,
    price_extra := template_val.price_extra.getD 0,
    base_value_id := base_val_id,
    base_value_name := base_val.name,
    linked := resolveLinkedInfo ctx template_val }

/- The inner loop of _process_attributes over the template attribute
values of one (template, attribute) group: a value whose base value id
is falsy or not a key of values_by_id is skipped, every other value is
resolved and appended. -/
def processLineValues (ctx : ResolveCtx) :
    List TemplateAttributeValue → List ResolvedValue
  | [] => []
  | template_val :: rest =>
    match template_val.product_attribute_value_id with
    | none => processLineValues ctx rest
    | some base_val_id =>
      if base_val_id = 0 then processLineValues ctx rest
      else
        match ctx.values_by_id.lookup base_val_id with
        | none => processLineValues ctx rest
        | some base_val =>
          mkValueData ctx template_val base_val_id base_val ::
            processLineValues ctx rest

/- The loop of _process_attributes over the grouped attribute ids of one
template: attributes absent from attributes_by_id are skipped, and a
line is appended only when it has at least one resolved value. -/
def buildAttributeLines (attrs_by_id : List (Nat × OdooAttribute)) (ctx : ResolveCtx) :
    List (Nat × List TemplateAttributeValue) → List AttributeLine
  | [] => []
  | (attr_id, template_vals) :: rest =>
    match attrs_by_id.lookup attr_id with
    | none => buildAttributeLines attrs_by_id ctx rest
    | some attr_rec =>
      let line_values := processLineValues ctx template_vals
      if line_values = [] then buildAttributeLines attrs_by_id ctx rest
      else
        { attribute_id := attr_id,
          attribute_name := attr_rec.name,
          display_type := attr_rec.display_type,
          create_variant := attr_rec.create_variant,
          values := line_values } :: buildAttributeLines attrs_by_id ctx rest

/- Nested grouping of template attribute values by template id and then
attribute id (values_by_template_and_attr in _process_attributes),
preserving dict insertion order and per-group append order. -/

def insertGroupedValue (acc : List (Nat × List TemplateAttributeValue))
    (attr_id : Nat) (v : TemplateAttributeValue) :
    List (Nat × List TemplateAttributeValue) :=
  match acc with
  | [] => [(attr_id, [v])]
  | (a, vs) :: rest =>
    if a = attr_id then (a, vs ++ [v]) :: rest
    else (a, vs) :: insertGroupedValue rest attr_id v

def insertTemplateGroupedValue
    (acc : List (Nat × List (Nat × List TemplateAttributeValue)))
    (template_id attr_id : Nat) (v : TemplateAttributeValue) :
    List (Nat × List (Nat × List TemplateAttributeValue)) :=
  match acc with
  | [] => [(template_id, [(attr_id, [v])])]
  | (t, groups) :: rest =>
    if t = template_id then (t, insertGroupedValue groups attr_id v) :: rest
    else (t, groups) :: insertTemplateGroupedValue rest template_id attr_id v

def values_by_template_and_attr (template_attribute_values : List TemplateAttributeValue) :
    List (Nat × List (Nat × List TemplateAttributeValue)) :=
  template_attribute_values.foldl
    (fun acc template_val =>
      match template_val.product_tmpl_id, template_val.attribute_id with
      | some template_id, some attr_id =>
        if template_id = 0 ∨ attr_id = 0 then acc
        else insertTemplateGroupedValue acc template_id attr_id template_val
      | _, _ => acc)
    []

/- The lines that attribute resolution produces for one product: nothing
without a template or without grouped values for its template, otherwise
the lines built from the grouped template attribute values. -/
def resolvedLinesFor (attrs_by_id : List (Nat × OdooAttribute)) (ctx : ResolveCtx)
    (vbta : List (Nat × List (Nat × List TemplateAttributeValue)))
    (product : BasicProduct) : List AttributeLine :=
  match product.product_tmpl_id with
  | none => []
  | some template_id =>
    if template_id = 0 then []
    else
      match vbta.lookup template_id with
      | none => []
      | some groups => buildAttributeLines attrs_by_id ctx groups

/- One step of the per-product loop of _process_attributes: a product is
recorded in product_attributes only when it has at least one resolved
attribute line. -/
def addProductAttributes (attrs_by_id : List (Nat × OdooAttribute)) (ctx : ResolveCtx)
    (vbta : List (Nat × List (Nat × List TemplateAttributeValue)))
    (acc : List (Nat × ProductAttrs)) (product : BasicProduct) :
    List (Nat × ProductAttrs) :=
  match product.product_tmpl_id with
  | none => acc
  | some template_id =>
    if template_id = 0 then acc
    else
      match vbta.lookup template_id with
      | none => acc
      | some groups =>
        let attribute_lines := buildAttributeLines attrs_by_id ctx groups
        if attribute_lines = [] then acc
        else
          assocSet acc product.id
            { product_id := product.id,
              product_name := product.name,
              template_id := template_id,
              attribute_lines := attribute_lines }

structure ProcessedAttributes where
  attributes : List OdooAttribute
  attribute_values : List ProcessedAttributeValue
  product_attributes : List (Nat × ProductAttrs)
deriving DecidableEq, Repr

/- OdooCacheService._process_attributes.  template_lines is received but
never read by the source (template attribute values are the source of
truth); template_values_by_id is built by the source and never read, so
it is elided here. -/
def process_attributes (attributes : List OdooAttribute)
    (attribute_values : List OdooAttributeValue)
    (_template_lines : List TemplateAttributeLine)
    (template_attribute_values : List TemplateAttributeValue)
    (products : List BasicProduct)
    (packaging_data : List (Nat × ProductPackaging))
    (linked_products_data : List (Nat × LinkedProductRec))
    (linked_template_prices : List (Nat × Int)) : ProcessedAttributes :=
  let attributes_by_id := dictOf (fun a => a.id) attributes
  let values_by_id := dictOf (fun v => v.id) attribute_values
  let ctx : ResolveCtx :=
    { values_by_id := values_by_id,
      packaging_data := packaging_data,
      linked_products_data := linked_products_data,
      linked_template_prices := linked_template_prices }
  let processed_attributes := attributes.map (fun attr =>
    { id := attr.id, name := attr.name,
      create_variant := attr.create_variant,
      display_type := attr.display_type : OdooAttribute })
  let processed_attribute_values := attribute_values.map (fun val =>
    { id := val.id, name := val.name,
      attribute_id := val.attribute_id.map (fun p => p.1),
      attribute_name := val.attribute_id.map (fun p => p.2) : ProcessedAttributeValue })
  let vbta := values_by_template_and_attr template_attribute_values
  let product_attributes :=
    products.foldl (addProductAttributes attributes_by_id ctx vbta) []
  { attributes := processed_attributes,
    attribute_values := processed_attribute_values,
    product_attributes := product_attributes }

/- Enriched product shape produced by
OdooCacheService._enrich_products_with_attributes.  Presentation-only
fields added later by _enrich_products_with_frontend_fields (tags,
preparation time, allergens) and passthrough fields (description,
barcode, image url) are elided. -/

structure PriceRange where
  min : Int
  max : Int
deriving DecidableEq, Repr

structure EnrichedProduct where
  id : Nat
  name : String
  pos_categ_id : Option (Nat × String)
  list_price : Int
  template_id : Option Nat
  attribute_lines : List AttributeLine
  has_attributes : Bool
  has_toppings : Bool
  price_range : PriceRange
deriving DecidableEq, Repr

/- The per-line contribution to the maximum price: a check_box line may
have every value selected, any other display type only the single
costliest value (Python max with default 0). -/
def lineExtra (line : AttributeLine) : Int :=
  if line.display_type = "check_box" then (line.values.map (fun v => v.price_extra)).sum
  else maxD (line.values.map (fun v => v.price_extra)) 0

def enrich_product (product_attributes : List (Nat × ProductAttrs))
    (product : BasicProduct) : EnrichedProduct :=
  match product_attributes.lookup product.id with
  | some attr_data =>
    let base_price := product.list_price
    let max_extra :=
      attr_data.attribute_lines.foldl (fun acc line => acc + lineExtra line) 0
    { id := product.id, name := product.name,
      pos_categ_id := product.pos_categ_id,
      list_price := product.list_price,
      template_id := product.product_tmpl_id,
      attribute_lines := attr_data.attribute_lines,
      has_attributes := true,
      has_toppings := attr_data.attribute_lines.any (fun line =>
        line.display_type = "check_box" ||
          containsSub line.attribute_name.toLower "topping"),
      price_range := { min := base_price, max := base_price + max_extra } }
  | none =>
    { id := product.id, name := product.name,
      pos_categ_id := product.pos_categ_id,
      list_price := product.list_price,
      template_id := product.product_tmpl_id,
      attribute_lines := [],
      has_attributes := false,
      has_toppings := false,
      price_range := { min := product.list_price, max := product.list_price } }

def enrich_products_with_attributes (basic_products : List BasicProduct)
    (product_attributes : List (Nat × ProductAttrs)) : List EnrichedProduct :=
  basic_products.map (enrich_product product_attributes)

/- OdooConnectionPool (app/services/connection_pool.py).  Time is an
explicit rational parameter standing for time.time(); the XML-RPC proxy
objects carry no data relevant to pooling and are elided.  Fresh object
identity (Python id(self)) is modelled by a counter in the pool state. -/

structure OdooConnection where
  connection_id : Nat
  created_at : Int
  last_used : Int
  in_use : Bool
deriving DecidableEq, Repr

def is_expired (c : OdooConnection) (max_age_seconds now : Int) : Bool :=
  decide (now - c.created_at > max_age_seconds)

def is_idle_too_long (c : OdooConnection) (max_idle_seconds now : Int) : Bool :=
  decide (now - c.last_used > max_idle_seconds)

structure PoolConfig where
  max_connections : Nat
  max_idle_time : Int
  max_connection_age : Int
deriving DecidableEq, Repr

/- Defaults of the OdooConnectionPool constructor. -/
def defaultPoolConfig : PoolConfig :=
  { max_connections := 10, max_idle_time := 300, max_connection_age := 3600 }

structure PoolState where
  pool : List OdooConnection
  active : List (Nat × OdooConnection)
  total_created : Nat
  total_reused : Nat
  next_id : Nat
deriving DecidableEq, Repr

def emptyPoolState : PoolState :=
  { pool := [], active := [], total_created := 0, total_reused := 0, next_id := 1 }

def staleTest (cfg : PoolConfig) (now : Int) (c : OdooConnection) : Bool :=
  is_expired c cfg.max_connection_age now || is_idle_too_long c cfg.max_idle_time now

/- OdooConnectionPool._cleanup_expired_connections: drops expired or
idle connections from both the active table and the idle queue; valid
pooled connections are put back in their original order and always fit
because the queue only shrank. -/
def cleanup_expired_connections (cfg : PoolConfig) (now : Int) (s : PoolState) : PoolState :=
  { s with
    active := s.active.filter (fun kv => !staleTest cfg now kv.2),
    pool := s.pool.filter (fun c => !staleTest cfg now c) }

/- OdooConnectionPool.get_connection with valid credentials, in which
case _create_connection always succeeds.  The pool queue is FIFO: the
head of the list is the next connection handed out, releases append at
the tail. -/
def get_connection (cfg : PoolConfig) (now : Int) (s : PoolState) :
    OdooConnection × PoolState :=
  let s := cleanup_expired_connections cfg now s
  match s.pool with
  | connection :: rest =>
    let connection := { connection with last_used := now, in_use := true }
    (connection,
      { s with pool := rest,
               active := assocSet s.active connection.connection_id connection,
               total_reused := s.total_reused + 1 })
  | [] =>
    let connection : OdooConnection :=
      { connection_id := s.next_id, created_at := now, last_used := now, in_use := true }
    (connection,
      { s with next_id := s.next_id + 1,
               total_created := s.total_created + 1,
               active := assocSet s.active connection.connection_id connection })

/- OdooConnectionPool.release_connection: the connection is marked free
and freshly used, dropped from the active table, and returned to the
idle queue only when it is neither expired nor idle-too-long and the
queue has room (a Python Queue with maxsize 0 is unbounded). -/
def release_connection (cfg : PoolConfig) (now : Int) (connection : OdooConnection)
    (s : PoolState) : PoolState :=
  let connection := { connection with in_use := false, last_used := now }
  let s := { s with active := s.active.filter (fun kv => !(kv.1 == connection.connection_id)) }
  if !staleTest cfg now connection then
    if cfg.max_connections = 0 || s.pool.length < cfg.max_connections then
      { s with pool := s.pool ++ [connection] }
    else s
  else s

/- Local JSON file cache of OdooCacheService.  Each collection is one
file under cache/; a missing file makes the accessor return its default.
Image counts and file sizes reported by get_cache_status are filesystem
artifacts outside the core data model and are elided. -/

structure CacheMetadata where
  last_updated : Option Int
  categories_count : Nat
  products_count : Nat
  attributes_count : Nat
  attribute_values_count : Nat
  products_with_attributes_count : Nat
deriving DecidableEq, Repr

def emptyCacheMetadata : CacheMetadata :=
  { last_updated := none, categories_count := 0, products_count := 0,
    attributes_count := 0, attribute_values_count := 0,
    products_with_attributes_count := 0 }

structure FileCache where
  categories : Option (List OdooCategory)
  products : Option (List EnrichedProduct)
  attributes : Option (List OdooAttribute)
  attribute_values : Option (List ProcessedAttributeValue)
  product_attributes : Option (List (Nat × ProductAttrs))
  metadata : Option CacheMetadata
deriving DecidableEq, Repr

def emptyFileCache : FileCache :=
  { categories := none, products := none, attributes := none,
    attribute_values := none, product_attributes := none, metadata := none }

def file_get_categories (st : FileCache) : List OdooCategory :=
  st.categories.getD []

def file_get_products (st : FileCache) : List EnrichedProduct :=
  st.products.getD []

def file_get_products_by_category (st : FileCache) (category_id : Nat) :
    List EnrichedProduct :=
  (file_get_products st).filter (fun prod =>
    match prod.pos_categ_id with
    | some pc => pc.1 == category_id
    | none => false)

def file_get_attributes (st : FileCache) : List OdooAttribute :=
  st.attributes.getD []

def file_get_attribute_values (st : FileCache) : List ProcessedAttributeValue :=
  st.attribute_values.getD []

def file_get_product_attributes (st : FileCache) : List (Nat × ProductAttrs) :=
  st.product_attributes.getD []

def file_get_cache_status (st : FileCache) : CacheMetadata :=
  st.metadata.getD emptyCacheMetadata

/- One upstream Odoo endpoint as seen through xmlrpc: the authentication
result and the response of each batched search_read call issued by
reload_cache.  Transport failures are Except.error values; an
authentication call that returns a falsy uid is Except.ok none.  The id
filters the source passes to each call are determined by the previous
responses and are elided, since every claim quantifies over all
responses. -/
structure Upstream where
  authenticate : Except String (Option Nat)
  fetch_categories : Except String (List OdooCategory)
  fetch_products : Except String (List RawProduct)
  fetch_template_prices : Except String (List TemplateRec)
  fetch_attributes : Except String (List OdooAttribute)
  fetch_attribute_values : Except String (List OdooAttributeValue)
  fetch_template_lines : Except String (List TemplateAttributeLine)
  fetch_template_attribute_values : Except String (List TemplateAttributeValue)
  fetch_packagings : Except String (List ProductPackaging)
  fetch_linked_products : Except String (List LinkedProductRec)
  fetch_linked_template_prices : Except String (List TemplateRec)

inductive ReloadError where
  | authRejected : ReloadError
  | rpc : String → ReloadError
  | unboundLocal : ReloadError
deriving DecidableEq, Repr

/- OdooCacheService.reload_cache.  The source performs every fetch
before the first _save_json call, so the embedding returns the written
cache state only on full success.  Two genuine branches of the source
reference a variable before assignment (linked_products_data when no
template attribute value carries a packaging id, linked_template_prices
when no packaging resolves to a product); they surface here as
ReloadError.unboundLocal.  Frontend enrichment of categories and
products adds presentation fields only and is elided. -/
def reload_cache (u : Upstream) (now : Int) :
    Except ReloadError (FileCache × CacheMetadata) :=
  match u.authenticate with
  | .error er => .error (.rpc er)
  | .ok none => .error .authRejected
  | .ok (some _uid) =>
    match u.fetch_categories with
    | .error er => .error (.rpc er)
    | .ok odoo_categories =>
      let categories := odoo_categories
      match u.fetch_products with
      | .error er => .error (.rpc er)
      | .ok odoo_products =>
        let template_ids := (odoo_products.filterMap (fun p => p.product_tmpl_id)).dedup
        match (if template_ids = [] then .ok [] else u.fetch_template_prices :
                Except String (List TemplateRec)) with
        | .error er => .error (.rpc er)
        | .ok odoo_templates =>
          let template_prices := dictOf (fun t => t.id) odoo_templates
          let basic_products : List BasicProduct := odoo_products.map (fun prod =>
            { id := prod.id, name := prod.name,
              pos_categ_id := prod.pos_categ_id,
              list_price :=
                match prod.product_tmpl_id with
                | some template_id =>
                  if template_id = 0 then 0
                  else ((template_prices.lookup template_id).map
                          (fun t => t.list_price)).getD 0
                | none => 0,
              product_tmpl_id := prod.product_tmpl_id })
          match u.fetch_attributes with
          | .error er => .error (.rpc er)
          | .ok attributes =>
            match u.fetch_attribute_values with
            | .error er => .error (.rpc er)
            | .ok attribute_values =>
              let pos_template_ids := template_ids
              match (if pos_template_ids = [] then .ok [] else u.fetch_template_lines :
                      Except String (List TemplateAttributeLine)) with
              | .error er => .error (.rpc er)
              | .ok template_lines =>
                match (if pos_template_ids = [] then .ok []
                       else u.fetch_template_attribute_values :
                        Except String (List TemplateAttributeValue)) with
                | .error er => .error (.rpc er)
                | .ok template_attribute_values =>
                  let packaging_ids := template_attribute_values.filterMap
                    (fun v => match v.product_packaging_id with
                              | some i => if i = 0 then none else some i
                              | none => none)
                  if packaging_ids = [] then .error .unboundLocal
                  else
                    match u.fetch_packagings with
                    | .error er => .error (.rpc er)
                    | .ok packagings =>
                      let packaging_data := dictOf (fun p => p.id) packagings
                      let linked_product_ids := packagings.filterMap
                        (fun p => match p.product_id with
                                  | some i => if i = 0 then none else some i
                                  | none => none)
                      if linked_product_ids = [] then .error .unboundLocal
                      else
                        match u.fetch_linked_products with
                        | .error er => .error (.rpc er)
                        | .ok linked_products =>
                          let linked_products_data :=
                            dictOf (fun p => p.id) linked_products
                          let linked_template_ids := linked_products.filterMap
                            (fun p => match p.product_tmpl_id with
                                      | some i => if i = 0 then none else some i
                                      | none => none)
                          match (if linked_template_ids = [] then .ok []
                                 else u.fetch_linked_template_prices :
                                  Except String (List TemplateRec)) with
                          | .error er => .error (.rpc er)
                          | .ok linked_templates =>
                            let linked_template_prices :=
                              (dictOf (fun t => t.id) linked_templates).map
                                (fun kv => (kv.1, kv.2.list_price))
                            let attributes_data := process_attributes attributes
                              attribute_values template_lines
                              template_attribute_values basic_products
                              packaging_data linked_products_data
                              linked_template_prices
                            let products := enrich_products_with_attributes
                              basic_products attributes_data.product_attributes
                            let metadata : CacheMetadata :=
                              { last_updated := some now,
                                categories_count := categories.length,
                                products_count := products.length,
                                attributes_count := attributes_data.attributes.length,
                                attribute_values_count :=
                                  attributes_data.attribute_values.length,
                                products_with_attributes_count :=
                                  attributes_data.product_attributes.length }
                            .ok ({ categories := some categories,
                                   products := some products,
                                   attributes := some attributes_data.attributes,
                                   attribute_values :=
                                     some attributes_data.attribute_values,
                                   product_attributes :=
                                     some attributes_data.product_attributes,
                                   metadata := some metadata }, metadata)

/- The caller view of reload_cache: on failure the exception propagates
and the cache directory is untouched. -/
def run_reload (u : Upstream) (now : Int) (st : FileCache) :
    FileCache × Except ReloadError CacheMetadata :=
  match reload_cache u now with
  | .ok (st', metadata) => (st', .ok metadata)
  | .error e => (st, .error e)

/- FirestoreCacheService (app/services/firestore_cache_service.py).
Documents are modelled as optional payloads carrying their write
timestamp; the batch write of save_cache_data is atomic, which the
single state assignment reflects.  The collection name strings are
irrelevant to behaviour and elided. -/

structure FirestoreCacheService where
  cache_ttl_hours : Int
deriving DecidableEq, Repr

def defaultFirestoreService : FirestoreCacheService :=
  { cache_ttl_hours := 24 }

structure AttributesDoc where
  attributes : List OdooAttribute
  attribute_values : List ProcessedAttributeValue
  product_attributes : List (Nat × ProductAttrs)
deriving DecidableEq, Repr

structure FirestoreMetadata where
  last_updated : Int
  categories_count : Nat
  products_count : Nat
  attributes_count : Nat
  attribute_values_count : Nat
  products_with_attributes_count : Nat
deriving DecidableEq, Repr

structure FirestoreState where
  categories_doc : Option (List OdooCategory × Int)
  products_doc : Option (List EnrichedProduct × Int)
  attributes_doc : Option (AttributesDoc × Int)
  metadata_doc : Option FirestoreMetadata
deriving DecidableEq, Repr

def emptyFirestoreState : FirestoreState :=
  { categories_doc := none, products_doc := none,
    attributes_doc := none, metadata_doc := none }

def save_cache_data (_svc : FirestoreCacheService) (now : Int)
    (categories : List OdooCategory) (products : List EnrichedProduct)
    (attributes : List OdooAttribute)
    (attribute_values : List ProcessedAttributeValue)
    (product_attributes : List (Nat × ProductAttrs)) :
    FirestoreState × FirestoreMetadata :=
  let metadata : FirestoreMetadata :=
    { last_updated := now,
      categories_count := categories.length,
      products_count := products.length,
      attributes_count := attributes.length,
      attribute_values_count := attribute_values.length,
      products_with_attributes_count := product_attributes.length }
  ({ categories_doc := some (categories, now),
     products_doc := some (products, now),
     attributes_doc := some ({ attributes := attributes,
                               attribute_values := attribute_values,
                               product_attributes := product_attributes }, now),
     metadata_doc := some metadata }, metadata)

/- FirestoreCacheService._is_cache_valid: the document timestamp must be
strictly later than now minus the TTL.  The string-parsing branch for
serialized timestamps is elided (timestamps are already values here). -/
def is_cache_valid (svc : FirestoreCacheService) (updated : Option Int) (now : Int) : Bool :=
  match updated with
  | none => false
  | some t => decide (t > now - svc.cache_ttl_hours * 3600)

def fs_get_categories (svc : FirestoreCacheService) (st : FirestoreState) (now : Int) :
    List OdooCategory :=
  match st.categories_doc with
  | none => []
  | some (data, updated) =>
    if is_cache_valid svc (some updated) now then data else []

def fs_get_products (svc : FirestoreCacheService) (st : FirestoreState) (now : Int) :
    List EnrichedProduct :=
  match st.products_doc with
  | none => []
  | some (data, updated) =>
    if is_cache_valid svc (some updated) now then data else []

def fs_get_products_by_category (svc : FirestoreCacheService) (st : FirestoreState)
    (now : Int) (category_id : Nat) : List EnrichedProduct :=
  (fs_get_products svc st now).filter (fun prod =>
    match prod.pos_categ_id with
    | some pc => pc.1 == category_id
    | none => false)

def fs_get_attributes (svc : FirestoreCacheService) (st : FirestoreState) (now : Int) :
    List OdooAttribute :=
  match st.attributes_doc with
  | none => []
  | some (data, updated) =>
    if is_cache_valid svc (some updated) now then data.attributes else []

def fs_get_attribute_values (svc : FirestoreCacheService) (st : FirestoreState)
    (now : Int) : List ProcessedAttributeValue :=
  match st.attributes_doc with
  | none => []
  | some (data, updated) =>
    if is_cache_valid svc (some updated) now then data.attribute_values else []

def fs_get_product_attributes (svc : FirestoreCacheService) (st : FirestoreState)
    (now : Int) : List (Nat × ProductAttrs) :=
  match st.attributes_doc with
  | none => []
  | some (data, updated) =>
    if is_cache_valid svc (some updated) now then data.product_attributes else []

/- HybridCacheService (app/services/cache_factory.py).  is_cloud_run is
the K_SERVICE environment signal read at construction; firestore is
none when FirestoreCacheService failed to initialize.  The optional
translation side tables are out of scope. -/

structure HybridState where
  is_cloud_run : Bool
  firestore : Option (FirestoreCacheService × FirestoreState)
  localCache : FileCache
deriving DecidableEq, Repr

def hybrid_get_categories (st : HybridState) (now : Int) : List OdooCategory :=
  match st.is_cloud_run, st.firestore with
  | true, some (svc, fsSt) =>
    let categories := fs_get_categories svc fsSt now
    if categories = [] then file_get_categories st.localCache else categories
  | _, _ => file_get_categories st.localCache

def hybrid_get_products (st : HybridState) (now : Int) : List EnrichedProduct :=
  match st.is_cloud_run, st.firestore with
  | true, some (svc, fsSt) =>
    let products := fs_get_products svc fsSt now
    if products = [] then file_get_products st.localCache else products
  | _, _ => file_get_products st.localCache

/- HybridCacheService.get_products_by_category delegates to the selected
backend directly, with no emptiness fallback. -/
def hybrid_get_products_by_category (st : HybridState) (now : Int) (category_id : Nat) :
    List EnrichedProduct :=
  match st.is_cloud_run, st.firestore with
  | true, some (svc, fsSt) => fs_get_products_by_category svc fsSt now category_id
  | _, _ => file_get_products_by_category st.localCache category_id

def hybrid_get_attributes (st : HybridState) (now : Int) : List OdooAttribute :=
  match st.is_cloud_run, st.firestore with
  | true, some (svc, fsSt) =>
    let attributes := fs_get_attributes svc fsSt now
    if attributes = [] then file_get_attributes st.localCache else attributes
  | _, _ => file_get_attributes st.localCache

def hybrid_get_attribute_values (st : HybridState) (now : Int) :
    List ProcessedAttributeValue :=
  match st.is_cloud_run, st.firestore with
  | true, some (svc, fsSt) =>
    let values := fs_get_attribute_values svc fsSt now
    if values = [] then file_get_attribute_values st.localCache else values
  | _, _ => file_get_attribute_values st.localCache

def hybrid_get_product_attributes (st : HybridState) (now : Int) :
    List (Nat × ProductAttrs) :=
  match st.is_cloud_run, st.firestore with
  | true, some (svc, fsSt) =>
    let attrs := fs_get_product_attributes svc fsSt now
    if attrs = [] then file_get_product_attributes st.localCache else attrs
  | _, _ => file_get_product_attributes st.localCache

inductive HybridMetadata where
  | localMeta : CacheMetadata → HybridMetadata
  | remoteMeta : FirestoreMetadata → HybridMetadata
deriving DecidableEq, Repr

/- HybridCacheService.reload_cache: the Odoo reload always runs first
and its errors propagate; when a Firestore service exists, the five
collections just written to the file cache are copied to Firestore, and
any exception in that block is caught, leaving the local metadata as
the result.  fs_write_ok models whether the remote write raises.  The
nested translation-collection save has its own try/except in the source
and cannot abort the block. -/
def hybrid_reload (u : Upstream) (now : Int) (fs_write_ok : Bool) (st : HybridState) :
    HybridState × Except ReloadError HybridMetadata :=
  match reload_cache u now with
  | .error e => (st, .error e)
  | .ok (lc, metadata) =>
    match st.firestore with
    | none => ({ st with localCache := lc }, .ok (.localMeta metadata))
    | some (svc, _fsSt) =>
      if fs_write_ok then
        let written := save_cache_data svc now
          (file_get_categories lc) (file_get_products lc)
          (file_get_attributes lc) (file_get_attribute_values lc)
          (file_get_product_attributes lc)
        ({ st with localCache := lc, firestore := some (svc, written.1) },
          .ok (.remoteMeta written.2))
      else
        ({ st with localCache := lc }, .ok (.localMeta metadata))

def exampleReleasedConn : OdooConnection :=
  { connection_id := 1, created_at := 0, last_used := 0, in_use := true }

def examplePooledConn : OdooConnection :=
  { connection_id := 1, created_at := 0, last_used := 5, in_use := false }

/- Concrete data for the price-range examples of the specification. -/

def exampleCheckboxProduct : BasicProduct :=
  { id := 1, name := "Banh mi", pos_categ_id := some (3, "Sandwiches"),
    list_price := 20000, product_tmpl_id := some 10 }

def exampleDeltaValue1000 : ResolvedValue :=
  { id := 101, name := "Cheese", price_extra := 1000,
    base_value_id := 11, base_value_name := "Cheese", linked := none }

def exampleDeltaValue1500 : ResolvedValue :=
  { id := 102, name := "Egg", price_extra := 1500,
    base_value_id := 12, base_value_name := "Egg", linked := none }

def exampleCheckboxAttrs : ProductAttrs :=
  { product_id := 1, product_name := "Banh mi", template_id := 10,
    attribute_lines := [
      { attribute_id := 5, attribute_name := "Extras",
        display_type := "check_box", create_variant := "no_variant",
        values := [exampleDeltaValue1000, exampleDeltaValue1500] }] }

def exampleRadioAttrs : ProductAttrs :=
  { product_id := 1, product_name := "Banh mi", template_id := 10,
    attribute_lines := [
      { attribute_id := 5, attribute_name := "Size",
        display_type := "radio", create_variant := "always",
        values := [exampleDeltaValue1000, exampleDeltaValue1500] }] }

def exampleCheckboxPA : List (Nat × ProductAttrs) := [(1, exampleCheckboxAttrs)]

def exampleRadioPA : List (Nat × ProductAttrs) := [(1, exampleRadioAttrs)]

def exampleBaseVal : OdooAttributeValue :=
  { id := 11, name := "Cheese", attribute_id := some (5, "Extras") }

def exampleResolveCtx : ResolveCtx :=
  { values_by_id := [(11, exampleBaseVal)],
    packaging_data := [], linked_products_data := [], linked_template_prices := [] }

def exampleUnmappedTav : TemplateAttributeValue :=
  { id := 201, name := "Ghost", price_extra := some 700,
    product_tmpl_id := some 10, attribute_id := some 5,
    product_attribute_value_id := some 99, product_packaging_id := none }

def exampleNoPriceTav : TemplateAttributeValue :=
  { id := 202, name := "Cheese", price_extra := none,
    product_tmpl_id := some 10, attribute_id := some 5,
    product_attribute_value_id := some 11, product_packaging_id := none }

def exampleRemoteCategory : OdooCategory :=
  { id := 3, name := "Sandwiches", parent_id := none, sequence := 1 }

def exampleLocalProduct : EnrichedProduct :=
  { id := 1, name := "Banh mi", pos_categ_id := some (3, "Sandwiches"),
    list_price := 20000, template_id := some 10, attribute_lines := [],
    has_attributes := false, has_toppings := false,
    price_range := { min := 20000, max := 20000 } }

def exampleLocalOnlyCache : FileCache :=
  { emptyFileCache with products := some [exampleLocalProduct] }

def exampleManagedState : HybridState :=
  { is_cloud_run := true,
    firestore := some (defaultFirestoreService, emptyFirestoreState),
    localCache := exampleLocalOnlyCache }

def exampleAuthRejectedUpstream : Upstream :=
  { authenticate := .ok none,
    fetch_categories := .ok [exampleRemoteCategory],
    fetch_products := .ok [],
    fetch_template_prices := .ok [],
    fetch_attributes := .ok [],
    fetch_attribute_values := .ok [],
    fetch_template_lines := .ok [],
    fetch_template_attribute_values := .ok [],
    fetch_packagings := .ok [],
    fetch_linked_products := .ok [],
    fetch_linked_template_prices := .ok [] }

def exampleFullUpstream : Upstream :=
  { authenticate := .ok (some 2),
    fetch_categories := .ok [],
    fetch_products := .ok
      [{ id := 1, name := "P", pos_categ_id := none, product_tmpl_id := some 10 }],
    fetch_template_prices := .ok [{ id := 10, list_price := 20000 }],
    fetch_attributes := .ok [],
    fetch_attribute_values := .ok [],
    fetch_template_lines := .ok [],
    fetch_template_attribute_values := .ok
      [{ id := 300, name := "V", price_extra := some 0,
         product_tmpl_id := some 10, attribute_id := some 5,
         product_attribute_value_id := some 11, product_packaging_id := some 70 }],
    fetch_packagings := .ok [{ id := 70, product_id := some 80 }],
    fetch_linked_products := .ok
      [{ id := 80, name := "L", product_tmpl_id := some 90 }],
    fetch_linked_template_prices := .ok [{ id := 90, list_price := 5000 }] }

def exampleReloadedMetadata : CacheMetadata :=
  { last_updated := some 0, categories_count := 0, products_count := 1,
    attributes_count := 0, attribute_values_count := 0,
    products_with_attributes_count := 0 }

def exampleReloadedCache : FileCache :=
  { categories := some [],
    products := some
      [{ id := 1, name := "P", pos_categ_id := none, list_price := 20000,
         template_id := some 10, attribute_lines := [],
         has_attributes := false, has_toppings := false,
         price_range := { min := 20000, max := 20000 } }],
    attributes := some [],
    attribute_values := some [],
    product_attributes := some [],
    metadata := some exampleReloadedMetadata }

def exampleHybridState : HybridState :=
  { is_cloud_run := true,
    firestore := some (defaultFirestoreService, emptyFirestoreState),
    localCache := emptyFileCache }

def exampleExtrasAttribute : OdooAttribute :=
  { id := 5, name := "Extras", create_variant := "no_variant",
    display_type := "check_box" }

def exampleCheeseTav : TemplateAttributeValue :=
  { id := 300, name := "Cheese", price_extra := some 1000,
    product_tmpl_id := some 10, attribute_id := some 5,
    product_attribute_value_id := some 11, product_packaging_id := none }

def exampleProcessedEntry : ProductAttrs :=
  { product_id := 1, product_name := "Banh mi", template_id := 10,
    attribute_lines := [
      { attribute_id := 5, attribute_name := "Extras",
        display_type := "check_box", create_variant := "no_variant",
        values := [
          { id := 300, name := "Cheese", price_extra := 1000,
            base_value_id := 11, base_value_name := "Cheese",
            linked := none }] }] }

def exampleNoTemplateProduct : BasicProduct :=
  { id := 7, name := "Water", pos_categ_id := some (4, "Drinks"),
    list_price := 8000, product_tmpl_id := none }


/- General helper lemmas about the dictionary and fold helpers. -/

theorem foldl_add_eq_sum {α : Type} (f : α → Int) :
    ∀ (l : List α) (init : Int),
      l.foldl (fun acc x => acc + f x) init = init + (l.map f).sum := by
  intro l
  induction l with
  | nil => intro init; simp
  | cons x xs ih =>
    intro init
    simp only [List.foldl_cons, List.map_cons, List.sum_cons, ih (init + f x)]
    ring

theorem assocSet_lookup_ne {α : Type} (k k' : Nat) (v : α) :
    ∀ (l : List (Nat × α)), k ≠ k' →
      (assocSet l k' v).lookup k = l.lookup k := by
  intro l hk
  have hbe : (k == k') = false := by simp [hk]
  induction l with
  | nil => simp [assocSet, List.lookup, hbe]
  | cons kv rest ih =>
    obtain ⟨k0, v0⟩ := kv
    by_cases h0 : k0 = k'
    · subst h0
      simp [assocSet, List.lookup, hbe]
    · simp only [assocSet, if_neg h0]
      cases hbe0 : k == k0 <;> simp [List.lookup, hbe0, ih]

theorem mem_assocSet {α : Type} (k k' : Nat) (v : α) (e : α) :
    ∀ (l : List (Nat × α)), (k, e) ∈ assocSet l k' v →
      (k, e) ∈ l ∨ (k = k' ∧ e = v) := by
  intro l
  induction l with
  | nil =>
    intro h
    simp only [assocSet, List.mem_singleton, Prod.mk.injEq] at h
    exact Or.inr h
  | cons kv rest ih =>
    obtain ⟨k0, v0⟩ := kv
    intro h
    by_cases h0 : k0 = k'
    · subst h0
      simp only [assocSet, eq_self_iff_true, if_true, List.mem_cons,
        Prod.mk.injEq] at h
      rcases h with h1 | h1
      · exact Or.inr h1
      · exact Or.inl (List.mem_cons_of_mem _ h1)
    · simp only [assocSet, if_neg h0, List.mem_cons] at h
      rcases h with h1 | h1
      · exact Or.inl (List.mem_cons.mpr (Or.inl h1))
      · rcases ih h1 with h2 | h2
        · exact Or.inl (List.mem_cons_of_mem _ h2)
        · exact Or.inr h2

/-- C3: release_connection never places a session whose age exceeds
max_connection_age (default 3600 seconds) into the idle pool: every
connection found in the pool after a release either was already pooled
before the call, or is the released connection and its age at the moment
of release is at most max_connection_age. -/
theorem release_never_pools_expired (cfg : PoolConfig) (now : Int)
    (connection : OdooConnection) (s : PoolState) (d : OdooConnection) :
    d ∈ (release_connection cfg now connection s).pool →
    d ∈ s.pool ∨ now - d.created_at ≤ cfg.max_connection_age := by
  intro hd
  simp only [release_connection] at hd
  split at hd
  next hfresh =>
    split at hd
    next =>
      simp only [List.mem_append, List.mem_singleton] at hd
      rcases hd with hd | hd
      · exact Or.inl hd
      · subst hd
        right
        rw [Bool.not_eq_true'] at hfresh
        rcases Bool.or_eq_false_iff.mp (by simpa [staleTest] using hfresh) with ⟨h1, _⟩
        simpa [is_expired, not_lt] using h1
    next => exact Or.inl hd
  next => exact Or.inl hd

theorem release_never_pools_expired_witness :
    examplePooledConn ∈
      (release_connection defaultPoolConfig 5 exampleReleasedConn emptyPoolState).pool ∧
    (examplePooledConn ∈ emptyPoolState.pool ∨
      (5 : Int) - examplePooledConn.created_at ≤ defaultPoolConfig.max_connection_age) :=
  ⟨by decide,
   release_never_pools_expired defaultPoolConfig 5 exampleReleasedConn emptyPoolState
     examplePooledConn (by decide)⟩

/-- C1: for every product whose id has an entry in the resolved
attribute map, enrichment sets price_range.min to the base price and
price_range.max to the base price plus, over all attribute lines, the
sum of all value deltas for a check_box line and the largest single
delta (0 for an empty line) for any other display type; in particular
one check_box line with deltas 1000 and 1500 on base price 20000 gives
max 22500, and a radio line with the same deltas gives max 21500. -/
theorem price_range_enrichment_spec :
    (∀ (product_attributes : List (Nat × ProductAttrs)) (product : BasicProduct)
        (attr_data : ProductAttrs),
      product_attributes.lookup product.id = some attr_data →
      (enrich_product product_attributes product).price_range.min =
          product.list_price ∧
      (enrich_product product_attributes product).price_range.max =
          product.list_price +
            (attr_data.attribute_lines.map (fun line =>
              if line.display_type = "check_box"
              then (line.values.map (fun v => v.price_extra)).sum
              else maxD (line.values.map (fun v => v.price_extra)) 0)).sum) ∧
    (enrich_product exampleCheckboxPA exampleCheckboxProduct).price_range.max =
      22500 ∧
    (enrich_product exampleRadioPA exampleCheckboxProduct).price_range.max =
      21500 := by
  refine ⟨?_, by decide, by decide⟩
  intro product_attributes product attr_data h
  constructor
  · simp [enrich_product, h]
  · simp only [enrich_product, h]
    rw [foldl_add_eq_sum lineExtra]
    simp only [zero_add]
    rfl

theorem price_range_enrichment_spec_witness :
    exampleCheckboxPA.lookup exampleCheckboxProduct.id = some exampleCheckboxAttrs ∧
    ((enrich_product exampleCheckboxPA exampleCheckboxProduct).price_range.min =
        exampleCheckboxProduct.list_price ∧
      (enrich_product exampleCheckboxPA exampleCheckboxProduct).price_range.max =
        exampleCheckboxProduct.list_price +
          (exampleCheckboxAttrs.attribute_lines.map (fun line =>
            if line.display_type = "check_box"
            then (line.values.map (fun v => v.price_extra)).sum
            else maxD (line.values.map (fun v => v.price_extra)) 0)).sum) :=
  ⟨by decide,
   price_range_enrichment_spec.1 exampleCheckboxPA exampleCheckboxProduct
     exampleCheckboxAttrs (by decide)⟩

theorem processLineValues_append (ctx : ResolveCtx) :
    ∀ (xs ys : List TemplateAttributeValue),
      processLineValues ctx (xs ++ ys) =
        processLineValues ctx xs ++ processLineValues ctx ys := by
  intro xs ys
  induction xs with
  | nil => simp [processLineValues]
  | cons tv rest ih =>
    simp only [List.cons_append, processLineValues]
    cases h : tv.product_attribute_value_id with
    | none => simpa using ih
    | some b =>
      by_cases hb : b = 0
      · simp [hb, ih]
      · cases hl : ctx.values_by_id.lookup b <;> simp [hb, hl, ih]

/-- C8: in the value-resolution loop, a template attribute value whose
base-value id is absent or not mapped by values_by_id is silently
dropped while all surrounding values of the line resolve exactly as
they would without it (resolution is total and never fails a product),
and a mapped value whose price_extra is absent resolves with price
delta 0. -/
theorem process_line_values_drop_and_default (ctx : ResolveCtx)
    (pre post : List TemplateAttributeValue) (tv : TemplateAttributeValue) :
    ((tv.product_attribute_value_id = none ∨
        ∃ b, tv.product_attribute_value_id = some b ∧
          ctx.values_by_id.lookup b = none) →
      processLineValues ctx (pre ++ tv :: post) =
        processLineValues ctx (pre ++ post)) ∧
    (∀ (b : Nat) (base_val : OdooAttributeValue),
      tv.product_attribute_value_id = some b → b ≠ 0 →
      ctx.values_by_id.lookup b = some base_val → tv.price_extra = none →
      processLineValues ctx (pre ++ tv :: post) =
        processLineValues ctx pre ++
          mkValueData ctx tv b base_val :: processLineValues ctx post ∧
      (mkValueData ctx tv b base_val).price_extra = 0) := by
  constructor
  · intro h
    rw [processLineValues_append, processLineValues_append]
    congr 1
    rcases h with h | ⟨b, hb, hl⟩
    · simp [processLineValues, h]
    · by_cases hb0 : b = 0
      · simp [processLineValues, hb, hb0]
      · simp [processLineValues, hb, hb0, hl]
  · intro b base_val hb hb0 hl hp
    refine ⟨?_, ?_⟩
    · rw [processLineValues_append]
      simp [processLineValues, hb, hb0, hl]
    · simp [mkValueData, hp]

theorem process_line_values_drop_and_default_witness :
    (processLineValues exampleResolveCtx
        ([exampleNoPriceTav] ++ exampleUnmappedTav :: []) =
      processLineValues exampleResolveCtx ([exampleNoPriceTav] ++ [])) ∧
    (processLineValues exampleResolveCtx ([] ++ exampleNoPriceTav :: []) =
      processLineValues exampleResolveCtx [] ++
        mkValueData exampleResolveCtx exampleNoPriceTav 11 exampleBaseVal ::
          processLineValues exampleResolveCtx [] ∧
      (mkValueData exampleResolveCtx exampleNoPriceTav 11 exampleBaseVal).price_extra
        = 0) :=
  ⟨(process_line_values_drop_and_default exampleResolveCtx [exampleNoPriceTav] []
      exampleUnmappedTav).1 (Or.inr ⟨99, by decide, by decide⟩),
   (process_line_values_drop_and_default exampleResolveCtx [] []
      exampleNoPriceTav).2 11 exampleBaseVal (by decide) (by decide) (by decide)
      (by decide)⟩

/-- C4: after save_cache_data writes a snapshot at time t, every remote
read (categories, products, attributes, attribute values, product
attributes) performed more than ttl (cache_ttl_hours, default 24 hours)
after t returns empty collections, and every such read performed before
ttl has elapsed returns exactly the written data. -/
theorem firestore_ttl_read_spec (svc : FirestoreCacheService) (t now : Int)
    (categories : List OdooCategory) (products : List EnrichedProduct)
    (attributes : List OdooAttribute)
    (attribute_values : List ProcessedAttributeValue)
    (product_attributes : List (Nat × ProductAttrs)) :
    ((now - t > svc.cache_ttl_hours * 3600) →
      fs_get_categories svc (save_cache_data svc t categories products attributes
          attribute_values product_attributes).1 now = [] ∧
      fs_get_products svc (save_cache_data svc t categories products attributes
          attribute_values product_attributes).1 now = [] ∧
      fs_get_attributes svc (save_cache_data svc t categories products attributes
          attribute_values product_attributes).1 now = [] ∧
      fs_get_attribute_values svc (save_cache_data svc t categories products
          attributes attribute_values product_attributes).1 now = [] ∧
      fs_get_product_attributes svc (save_cache_data svc t categories products
          attributes attribute_values product_attributes).1 now = []) ∧
    ((now - t < svc.cache_ttl_hours * 3600) →
      fs_get_categories svc (save_cache_data svc t categories products attributes
          attribute_values product_attributes).1 now = categories ∧
      fs_get_products svc (save_cache_data svc t categories products attributes
          attribute_values product_attributes).1 now = products ∧
      fs_get_attributes svc (save_cache_data svc t categories products attributes
          attribute_values product_attributes).1 now = attributes ∧
      fs_get_attribute_values svc (save_cache_data svc t categories products
          attributes attribute_values product_attributes).1 now = attribute_values ∧
      fs_get_product_attributes svc (save_cache_data svc t categories products
          attributes attribute_values product_attributes).1 now
        = product_attributes) := by
  constructor
  · intro h
    have hvalid : is_cache_valid svc (some t) now = false := by
      simp only [is_cache_valid, decide_eq_false_iff_not, not_lt]
      linarith
    refine ⟨?_, ?_, ?_, ?_, ?_⟩ <;>
      simp [fs_get_categories, fs_get_products, fs_get_attributes,
        fs_get_attribute_values, fs_get_product_attributes, save_cache_data, hvalid]
  · intro h
    have hvalid : is_cache_valid svc (some t) now = true := by
      simp only [is_cache_valid, decide_eq_true_eq]
      linarith
    refine ⟨?_, ?_, ?_, ?_, ?_⟩ <;>
      simp [fs_get_categories, fs_get_products, fs_get_attributes,
        fs_get_attribute_values, fs_get_product_attributes, save_cache_data, hvalid]

theorem firestore_ttl_read_spec_witness :
    (((90000 : Int) - 0 > defaultFirestoreService.cache_ttl_hours * 3600) ∧
      fs_get_categories defaultFirestoreService
        (save_cache_data defaultFirestoreService 0 [exampleRemoteCategory] [] [] []
          []).1 90000 = [] ∧
      fs_get_products defaultFirestoreService
        (save_cache_data defaultFirestoreService 0 [exampleRemoteCategory] [] [] []
          []).1 90000 = [] ∧
      fs_get_attributes defaultFirestoreService
        (save_cache_data defaultFirestoreService 0 [exampleRemoteCategory] [] [] []
          []).1 90000 = [] ∧
      fs_get_attribute_values defaultFirestoreService
        (save_cache_data defaultFirestoreService 0 [exampleRemoteCategory] [] [] []
          []).1 90000 = [] ∧
      fs_get_product_attributes defaultFirestoreService
        (save_cache_data defaultFirestoreService 0 [exampleRemoteCategory] [] [] []
          []).1 90000 = []) ∧
    (((600 : Int) - 0 < defaultFirestoreService.cache_ttl_hours * 3600) ∧
      fs_get_categories defaultFirestoreService
        (save_cache_data defaultFirestoreService 0 [exampleRemoteCategory] [] [] []
          []).1 600 = [exampleRemoteCategory] ∧
      fs_get_products defaultFirestoreService
        (save_cache_data defaultFirestoreService 0 [exampleRemoteCategory] [] [] []
          []).1 600 = [] ∧
      fs_get_attributes defaultFirestoreService
        (save_cache_data defaultFirestoreService 0 [exampleRemoteCategory] [] [] []
          []).1 600 = [] ∧
      fs_get_attribute_values defaultFirestoreService
        (save_cache_data defaultFirestoreService 0 [exampleRemoteCategory] [] [] []
          []).1 600 = [] ∧
      fs_get_product_attributes defaultFirestoreService
        (save_cache_data defaultFirestoreService 0 [exampleRemoteCategory] [] [] []
          []).1 600 = []) :=
  ⟨⟨by decide,
    (firestore_ttl_read_spec defaultFirestoreService 0 90000 [exampleRemoteCategory]
      [] [] [] []).1 (by decide)⟩,
   ⟨by decide,
    (firestore_ttl_read_spec defaultFirestoreService 0 600 [exampleRemoteCategory]
      [] [] [] []).2 (by decide)⟩⟩

/-- C5 counterexample: in managed mode with the remote store available
but empty, the per-category products accessor does not fall back to the
local store: hybrid_get_products_by_category returns the empty remote
result even though the local store holds a product of that category, so
not every orchestrator read accessor falls back on an empty remote
result. -/
theorem get_products_by_category_no_fallback_cex :
    fs_get_products defaultFirestoreService emptyFirestoreState 0 = [] ∧
    file_get_products_by_category exampleManagedState.localCache 3 =
      [exampleLocalProduct] ∧
    hybrid_get_products_by_category exampleManagedState 0 3 = [] ∧
    hybrid_get_products_by_category exampleManagedState 0 3 ≠
      file_get_products_by_category exampleManagedState.localCache 3 := by
  refine ⟨by decide, by decide, by decide, by decide⟩

/-- C5 amended: in managed mode with the remote store available, the
whole-collection accessors (categories, products, attributes, attribute
values, product attributes) read the remote store first and return the
local result whenever the remote result is empty — in particular
getProducts returns the local result when the remote products read is
empty — while the per-category products accessor returns the remote
result directly, without fallback. -/
theorem hybrid_read_fallback_amended (st : HybridState) (now : Int)
    (svc : FirestoreCacheService) (fsSt : FirestoreState) (category_id : Nat) :
    st.is_cloud_run = true → st.firestore = some (svc, fsSt) →
    (fs_get_categories svc fsSt now = [] →
      hybrid_get_categories st now = file_get_categories st.localCache) ∧
    (fs_get_products svc fsSt now = [] →
      hybrid_get_products st now = file_get_products st.localCache) ∧
    (fs_get_attributes svc fsSt now = [] →
      hybrid_get_attributes st now = file_get_attributes st.localCache) ∧
    (fs_get_attribute_values svc fsSt now = [] →
      hybrid_get_attribute_values st now = file_get_attribute_values st.localCache) ∧
    (fs_get_product_attributes svc fsSt now = [] →
      hybrid_get_product_attributes st now =
        file_get_product_attributes st.localCache) ∧
    hybrid_get_products_by_category st now category_id =
      fs_get_products_by_category svc fsSt now category_id := by
  intro hcr hfs
  refine ⟨?_, ?_, ?_, ?_, ?_, ?_⟩
  · intro hp; simp [hybrid_get_categories, hcr, hfs, hp]
  · intro hp; simp [hybrid_get_products, hcr, hfs, hp]
  · intro hp; simp [hybrid_get_attributes, hcr, hfs, hp]
  · intro hp; simp [hybrid_get_attribute_values, hcr, hfs, hp]
  · intro hp; simp [hybrid_get_product_attributes, hcr, hfs, hp]
  · simp [hybrid_get_products_by_category, hcr, hfs]

theorem hybrid_read_fallback_amended_witness :
    exampleManagedState.is_cloud_run = true ∧
    exampleManagedState.firestore =
      some (defaultFirestoreService, emptyFirestoreState) ∧
    fs_get_products defaultFirestoreService emptyFirestoreState 0 = [] ∧
    hybrid_get_products exampleManagedState 0 =
      file_get_products exampleManagedState.localCache :=
  ⟨rfl, rfl, by decide,
   (hybrid_read_fallback_amended exampleManagedState 0 defaultFirestoreService
      emptyFirestoreState 3 rfl rfl).2.1 (by decide)⟩

/-- C2: a reload that fails — upstream authentication rejected, the
authenticate call itself failing, or a batched fetch step failing —
surfaces the error to the caller, and on any failed reload the cache
directory is untouched: every read accessor and the cache metadata
return exactly what they returned before the call (the source performs
every fetch before its first _save_json call). -/
theorem reload_failure_preserves_cache (u : Upstream) (now : Int) (st : FileCache) :
    (u.authenticate = .ok none →
      reload_cache u now = .error .authRejected) ∧
    (∀ er, u.authenticate = .error er →
      reload_cache u now = .error (.rpc er)) ∧
    (∀ uid er, u.authenticate = .ok (some uid) → u.fetch_categories = .error er →
      reload_cache u now = .error (.rpc er)) ∧
    (∀ e, reload_cache u now = .error e →
      run_reload u now st = (st, .error e) ∧
      file_get_categories (run_reload u now st).1 = file_get_categories st ∧
      file_get_products (run_reload u now st).1 = file_get_products st ∧
      (∀ category_id, file_get_products_by_category (run_reload u now st).1
          category_id = file_get_products_by_category st category_id) ∧
      file_get_attributes (run_reload u now st).1 = file_get_attributes st ∧
      file_get_attribute_values (run_reload u now st).1 =
        file_get_attribute_values st ∧
      file_get_product_attributes (run_reload u now st).1 =
        file_get_product_attributes st ∧
      file_get_cache_status (run_reload u now st).1 = file_get_cache_status st) := by
  refine ⟨?_, ?_, ?_, ?_⟩
  · intro h
    simp [reload_cache, h]
  · intro er h
    simp [reload_cache, h]
  · intro uid er h1 h2
    simp [reload_cache, h1, h2]
  · intro e h
    have hrun : run_reload u now st = (st, .error e) := by
      simp [run_reload, h]
    exact ⟨hrun, by rw [hrun], by rw [hrun], fun category_id => by rw [hrun],
      by rw [hrun], by rw [hrun], by rw [hrun], by rw [hrun]⟩

theorem reload_failure_preserves_cache_witness :
    exampleAuthRejectedUpstream.authenticate = .ok none ∧
    reload_cache exampleAuthRejectedUpstream 0 = .error .authRejected ∧
    run_reload exampleAuthRejectedUpstream 0 exampleLocalOnlyCache =
      (exampleLocalOnlyCache, .error .authRejected) ∧
    file_get_products
        (run_reload exampleAuthRejectedUpstream 0 exampleLocalOnlyCache).1 =
      file_get_products exampleLocalOnlyCache :=
  ⟨rfl,
   (reload_failure_preserves_cache exampleAuthRejectedUpstream 0
      exampleLocalOnlyCache).1 rfl,
   ((reload_failure_preserves_cache exampleAuthRejectedUpstream 0
      exampleLocalOnlyCache).2.2.2 .authRejected
      ((reload_failure_preserves_cache exampleAuthRejectedUpstream 0
        exampleLocalOnlyCache).1 rfl)).1,
   ((reload_failure_preserves_cache exampleAuthRejectedUpstream 0
      exampleLocalOnlyCache).2.2.2 .authRejected
      ((reload_failure_preserves_cache exampleAuthRejectedUpstream 0
        exampleLocalOnlyCache).1 rfl)).2.2.1⟩

/-- C6: when the fetch and the local write succeed (reload_cache returns
ok) but the write to the remote store raises, hybrid reload does not
propagate the error: it returns the metadata produced by the local
write, and the local cache holds the freshly written snapshot. -/
theorem hybrid_reload_remote_write_failure_degrades (u : Upstream) (now : Int)
    (st : HybridState) (svc : FirestoreCacheService) (fsSt : FirestoreState)
    (lc : FileCache) (metadata : CacheMetadata) :
    st.firestore = some (svc, fsSt) →
    reload_cache u now = .ok (lc, metadata) →
    hybrid_reload u now false st =
      ({ st with localCache := lc }, .ok (.localMeta metadata)) ∧
    (hybrid_reload u now false st).2 = .ok (.localMeta metadata) ∧
    (hybrid_reload u now false st).1.localCache = lc := by
  intro hfs hrel
  have hmain : hybrid_reload u now false st =
      ({ st with localCache := lc }, .ok (.localMeta metadata)) := by
    simp [hybrid_reload, hrel, hfs]
  exact ⟨hmain, by rw [hmain], by rw [hmain]⟩

theorem hybrid_reload_remote_write_failure_degrades_witness :
    exampleHybridState.firestore =
      some (defaultFirestoreService, emptyFirestoreState) ∧
    reload_cache exampleFullUpstream 0 =
      .ok (exampleReloadedCache, exampleReloadedMetadata) ∧
    (hybrid_reload exampleFullUpstream 0 false exampleHybridState =
      ({ exampleHybridState with localCache := exampleReloadedCache },
        .ok (.localMeta exampleReloadedMetadata)) ∧
    (hybrid_reload exampleFullUpstream 0 false exampleHybridState).2 =
      .ok (.localMeta exampleReloadedMetadata) ∧
    (hybrid_reload exampleFullUpstream 0 false exampleHybridState).1.localCache =
      exampleReloadedCache) :=
  ⟨rfl, rfl,
   hybrid_reload_remote_write_failure_degrades exampleFullUpstream 0
     exampleHybridState defaultFirestoreService emptyFirestoreState
     exampleReloadedCache exampleReloadedMetadata rfl rfl⟩

theorem values_ne_nil_of_mem_buildAttributeLines
    (attrs_by_id : List (Nat × OdooAttribute)) (ctx : ResolveCtx) :
    ∀ (groups : List (Nat × List TemplateAttributeValue)) (line : AttributeLine),
      line ∈ buildAttributeLines attrs_by_id ctx groups → line.values ≠ [] := by
  intro groups
  induction groups with
  | nil => intro line h; simp [buildAttributeLines] at h
  | cons g rest ih =>
    obtain ⟨attr_id, template_vals⟩ := g
    intro line h
    simp only [buildAttributeLines] at h
    cases hl : attrs_by_id.lookup attr_id with
    | none =>
      rw [hl] at h
      exact ih line h
    | some attr_rec =>
      rw [hl] at h
      by_cases hv : processLineValues ctx template_vals = []
      · simp only [if_pos hv] at h
        exact ih line h
      · simp only [if_neg hv] at h
        rcases List.mem_cons.mp h with h1 | h1
        · rw [h1]
          exact hv
        · exact ih line h1

theorem product_attributes_entries_sound
    (attrs_by_id : List (Nat × OdooAttribute)) (ctx : ResolveCtx)
    (vbta : List (Nat × List (Nat × List TemplateAttributeValue))) :
    ∀ (products : List BasicProduct) (acc : List (Nat × ProductAttrs)),
      (∀ k e, (k, e) ∈ acc → e.attribute_lines ≠ [] ∧
        ∀ line ∈ e.attribute_lines, line.values ≠ []) →
      ∀ k e, (k, e) ∈ products.foldl (addProductAttributes attrs_by_id ctx vbta) acc →
        e.attribute_lines ≠ [] ∧ ∀ line ∈ e.attribute_lines, line.values ≠ [] := by
  intro products
  induction products with
  | nil =>
    intro acc hacc k e h
    exact hacc k e h
  | cons p rest ih =>
    intro acc hacc k e h
    simp only [List.foldl_cons] at h
    refine ih _ ?_ k e h
    intro k' e' h'
    unfold addProductAttributes at h'
    cases hp : p.product_tmpl_id with
    | none =>
      rw [hp] at h'
      exact hacc k' e' h'
    | some template_id =>
      rw [hp] at h'
      by_cases h0 : template_id = 0
      · simp only [if_pos h0] at h'
        exact hacc k' e' h'
      · simp only [if_neg h0] at h'
        cases hg : vbta.lookup template_id with
        | none =>
          rw [hg] at h'
          exact hacc k' e' h'
        | some groups =>
          rw [hg] at h'
          by_cases hlines : buildAttributeLines attrs_by_id ctx groups = []
          · simp only [if_pos hlines] at h'
            exact hacc k' e' h'
          · simp only [if_neg hlines] at h'
            rcases mem_assocSet _ _ _ _ _ h' with h1 | ⟨_, h2⟩
            · exact hacc k' e' h1
            · subst h2
              exact ⟨hlines,
                fun line hline =>
                  values_ne_nil_of_mem_buildAttributeLines attrs_by_id ctx
                    groups line hline⟩

/-- C10: every entry of the per-product attribute map built by
process_attributes has a non-empty list of attribute lines, and every
line of every entry has a non-empty list of resolved values: products
whose lines all resolve empty, and lines with no resolved values, are
omitted rather than stored empty. -/
theorem product_attributes_nonempty_invariant
    (attributes : List OdooAttribute) (attribute_values : List OdooAttributeValue)
    (template_lines : List TemplateAttributeLine)
    (template_attribute_values : List TemplateAttributeValue)
    (products : List BasicProduct)
    (packaging_data : List (Nat × ProductPackaging))
    (linked_products_data : List (Nat × LinkedProductRec))
    (linked_template_prices : List (Nat × Int)) (k : Nat) (e : ProductAttrs) :
    (k, e) ∈ (process_attributes attributes attribute_values template_lines
        template_attribute_values products packaging_data linked_products_data
        linked_template_prices).product_attributes →
    e.attribute_lines ≠ [] ∧ ∀ line ∈ e.attribute_lines, line.values ≠ [] := by
  intro h
  simp only [process_attributes] at h
  refine product_attributes_entries_sound _ _ _ products [] ?_ k e h
  intro k' e' h'
  simp at h'

theorem product_attributes_nonempty_invariant_witness :
    ((1 : Nat), exampleProcessedEntry) ∈
      (process_attributes [exampleExtrasAttribute] [exampleBaseVal] []
        [exampleCheeseTav] [exampleCheckboxProduct] [] [] []).product_attributes ∧
    (exampleProcessedEntry.attribute_lines ≠ [] ∧
      ∀ line ∈ exampleProcessedEntry.attribute_lines, line.values ≠ []) :=
  ⟨by decide,
   product_attributes_nonempty_invariant [exampleExtrasAttribute] [exampleBaseVal]
     [] [exampleCheeseTav] [exampleCheckboxProduct] [] [] [] 1
     exampleProcessedEntry (by decide)⟩

theorem fold_lookup_none_of_no_lines
    (attrs_by_id : List (Nat × OdooAttribute)) (ctx : ResolveCtx)
    (vbta : List (Nat × List (Nat × List TemplateAttributeValue))) :
    ∀ (products : List BasicProduct) (acc : List (Nat × ProductAttrs)) (k : Nat),
      acc.lookup k = none →
      (∀ q ∈ products, q.id = k → resolvedLinesFor attrs_by_id ctx vbta q = []) →
      (products.foldl (addProductAttributes attrs_by_id ctx vbta) acc).lookup k
        = none := by
  intro products
  induction products with
  | nil =>
    intro acc k hacc _
    simpa using hacc
  | cons p rest ih =>
    intro acc k hacc hno
    simp only [List.foldl_cons]
    refine ih _ k ?_ (fun q hq hqk => hno q (List.mem_cons_of_mem _ hq) hqk)
    unfold addProductAttributes
    cases hp : p.product_tmpl_id with
    | none => exact hacc
    | some template_id =>
      by_cases h0 : template_id = 0
      · simpa [h0] using hacc
      · simp only [if_neg h0]
        cases hg : vbta.lookup template_id with
        | none => exact hacc
        | some groups =>
          by_cases hpk : p.id = k
          · have hlines := hno p (List.mem_cons_self p rest) hpk
            unfold resolvedLinesFor at hlines
            rw [hp] at hlines
            simp only [if_neg h0, hg] at hlines
            simpa [hlines] using hacc
          · by_cases hlines : buildAttributeLines attrs_by_id ctx groups = []
            · simp only [if_pos hlines]
              exact hacc
            · simp only [if_neg hlines]
              rw [assocSet_lookup_ne k p.id _ acc (fun hkp => hpk hkp.symm)]
              exact hacc

/-- C9: a product for which attribute resolution yields no resolved
attribute lines — no template, template absent from the grouped values,
or every group resolving to an empty line list, and likewise for every
product sharing its id — is enriched with attribute_lines = [],
has_attributes = false and a price range whose min and max both equal
its base price, and that enriched product is the one the enrichment
step emits for it. -/
theorem no_lines_product_enrichment
    (attributes : List OdooAttribute) (attribute_values : List OdooAttributeValue)
    (template_lines : List TemplateAttributeLine)
    (template_attribute_values : List TemplateAttributeValue)
    (products : List BasicProduct)
    (packaging_data : List (Nat × ProductPackaging))
    (linked_products_data : List (Nat × LinkedProductRec))
    (linked_template_prices : List (Nat × Int)) (p : BasicProduct) :
    p ∈ products →
    (∀ q ∈ products, q.id = p.id →
      resolvedLinesFor (dictOf (fun a => a.id) attributes)
        { values_by_id := dictOf (fun v => v.id) attribute_values,
          packaging_data := packaging_data,
          linked_products_data := linked_products_data,
          linked_template_prices := linked_template_prices }
        (values_by_template_and_attr template_attribute_values) q = []) →
    enrich_product (process_attributes attributes attribute_values template_lines
        template_attribute_values products packaging_data linked_products_data
        linked_template_prices).product_attributes p ∈
      enrich_products_with_attributes products
        (process_attributes attributes attribute_values template_lines
          template_attribute_values products packaging_data linked_products_data
          linked_template_prices).product_attributes ∧
    (enrich_product (process_attributes attributes attribute_values template_lines
        template_attribute_values products packaging_data linked_products_data
        linked_template_prices).product_attributes p).attribute_lines = [] ∧
    (enrich_product (process_attributes attributes attribute_values template_lines
        template_attribute_values products packaging_data linked_products_data
        linked_template_prices).product_attributes p).has_attributes = false ∧
    (enrich_product (process_attributes attributes attribute_values template_lines
        template_attribute_values products packaging_data linked_products_data
        linked_template_prices).product_attributes p).price_range =
      { min := p.list_price, max := p.list_price } := by
  intro hp hno
  have hlook : ((process_attributes attributes attribute_values template_lines
      template_attribute_values products packaging_data linked_products_data
      linked_template_prices).product_attributes).lookup p.id = none := by
    simp only [process_attributes]
    exact fold_lookup_none_of_no_lines _ _ _ products [] p.id rfl hno
  refine ⟨List.mem_map_of_mem _ hp, ?_, ?_, ?_⟩ <;>
    simp [enrich_product, hlook]

theorem no_lines_product_enrichment_witness :
    exampleNoTemplateProduct ∈ [exampleNoTemplateProduct] ∧
    (∀ q ∈ [exampleNoTemplateProduct], q.id = exampleNoTemplateProduct.id →
      resolvedLinesFor (dictOf (fun a => a.id) ([] : List OdooAttribute))
        { values_by_id := dictOf (fun v => v.id) ([] : List OdooAttributeValue),
          packaging_data := [], linked_products_data := [],
          linked_template_prices := [] }
        (values_by_template_and_attr []) q = []) ∧
    ((enrich_product (process_attributes [] [] [] [] [exampleNoTemplateProduct]
        [] [] []).product_attributes exampleNoTemplateProduct).attribute_lines
        = [] ∧
      (enrich_product (process_attributes [] [] [] [] [exampleNoTemplateProduct]
        [] [] []).product_attributes exampleNoTemplateProduct).has_attributes
        = false ∧
      (enrich_product (process_attributes [] [] [] [] [exampleNoTemplateProduct]
        [] [] []).product_attributes exampleNoTemplateProduct).price_range =
        { min := exampleNoTemplateProduct.list_price,
          max := exampleNoTemplateProduct.list_price }) :=
  ⟨by decide, by decide,
   (no_lines_product_enrichment [] [] [] [] [exampleNoTemplateProduct] [] [] []
     exampleNoTemplateProduct (by decide) (by decide)).2⟩

theorem release_total_reused (cfg : PoolConfig) (now : Int)
    (connection : OdooConnection) (s : PoolState) :
    (release_connection cfg now connection s).total_reused = s.total_reused := by
  unfold release_connection
  dsimp only
  split
  · split <;> rfl
  · rfl

theorem get_total_reused_ge (cfg : PoolConfig) (now : Int) (s : PoolState) :
    s.total_reused ≤ ((get_connection cfg now s).2).total_reused := by
  simp only [get_connection]
  cases hp : (cleanup_expired_connections cfg now s).pool with
  | nil => exact Nat.le_refl _
  | cons c rest => exact Nat.le_succ _

theorem get_reuse_increment (cfg : PoolConfig) (now : Int) (s : PoolState)
    (c : OdooConnection) (rest : List OdooConnection) :
    (cleanup_expired_connections cfg now s).pool = c :: rest →
    ((get_connection cfg now s).2).total_reused = s.total_reused + 1 := by
  intro hp
  simp only [get_connection, hp]
  rfl

/-- C7: with valid credentials (session creation always succeeds), for
any prior pool state, acquiring a session, releasing it while it is not
expired, and acquiring again at the same instant leaves the pool with
total_reused at least 1: either the first acquire already reused a
pooled session, or the released session is pooled and immediately
reused by the second acquire. -/
theorem pool_reuse_after_release (cfg : PoolConfig) (s : PoolState) (t1 t2 : Int) :
    0 ≤ cfg.max_idle_time → 0 < cfg.max_connections →
    is_expired (get_connection cfg t1 s).1 cfg.max_connection_age t2 = false →
    1 ≤ ((get_connection cfg t2
      (release_connection cfg t2 (get_connection cfg t1 s).1
        (get_connection cfg t1 s).2)).2).total_reused := by
  intro hidle hmax hexp
  cases hp : (cleanup_expired_connections cfg t1 s).pool with
  | cons c rest =>
    have h1 : ((get_connection cfg t1 s).2).total_reused = s.total_reused + 1 :=
      get_reuse_increment cfg t1 s c rest hp
    have h2 :
        (release_connection cfg t2 (get_connection cfg t1 s).1
          (get_connection cfg t1 s).2).total_reused = s.total_reused + 1 := by
      rw [release_total_reused, h1]
    have h3 := get_total_reused_ge cfg t2
      (release_connection cfg t2 (get_connection cfg t1 s).1
        (get_connection cfg t1 s).2)
    omega
  | nil =>
    have hfst : (get_connection cfg t1 s).1 =
        { connection_id := (cleanup_expired_connections cfg t1 s).next_id,
          created_at := t1, last_used := t1, in_use := true } := by
      simp only [get_connection, hp]
    have hsndpool : ((get_connection cfg t1 s).2).pool = [] := by
      simp only [get_connection, hp]
    have hcreated : (get_connection cfg t1 s).1.created_at = t1 := by
      rw [hfst]
    have hstale : staleTest cfg t2
        { (get_connection cfg t1 s).1 with in_use := false, last_used := t2 }
          = false := by
      have hexp2 : decide
          (t2 - (get_connection cfg t1 s).1.created_at > cfg.max_connection_age)
            = false := by
        simpa [is_expired] using hexp
      simp only [staleTest, is_expired, is_idle_too_long, Bool.or_eq_false_iff]
      constructor
      · simpa using hexp2
      · simp only [decide_eq_false_iff_not, not_lt]
        omega
    have hrelpool :
        (release_connection cfg t2 (get_connection cfg t1 s).1
          (get_connection cfg t1 s).2).pool =
        [{ (get_connection cfg t1 s).1 with in_use := false, last_used := t2 }] := by
      unfold release_connection
      dsimp only
      rw [hstale]
      simp [hsndpool, hmax]
    have hclean2pool :
        (cleanup_expired_connections cfg t2
          (release_connection cfg t2 (get_connection cfg t1 s).1
            (get_connection cfg t1 s).2)).pool =
        [{ (get_connection cfg t1 s).1 with in_use := false, last_used := t2 }] := by
      simp only [cleanup_expired_connections, hrelpool]
      simp [hstale]
    rw [get_reuse_increment cfg t2 _ _ _ hclean2pool]
    omega

theorem pool_reuse_after_release_witness :
    (0 : Int) ≤ defaultPoolConfig.max_idle_time ∧
    0 < defaultPoolConfig.max_connections ∧
    is_expired (get_connection defaultPoolConfig 0 emptyPoolState).1
      defaultPoolConfig.max_connection_age 0 = false ∧
    1 ≤ ((get_connection defaultPoolConfig 0
      (release_connection defaultPoolConfig 0
        (get_connection defaultPoolConfig 0 emptyPoolState).1
        (get_connection defaultPoolConfig 0 emptyPoolState).2)).2).total_reused :=
  ⟨by decide, by decide, by decide,
   pool_reuse_after_release defaultPoolConfig emptyPoolState 0 0 (by decide)
     (by decide) (by decide)⟩
